/-
Verification of the configuration data model of pypsa-nza-plotter.

The development shallowly embeds the two dataclasses of the repository
(PlotConfig in models/plot_config.py and SeriesConfig in
models/series_config.py), their construction-time normalisation
(`__post_init__`), the dictionary serialisation (`to_dict` / `from_dict`),
the preset registry (`PRESET_CONFIGS` / `get_preset_config`), the
draw-time validation of the line plotter (`_plot_series_on_axes`), and
the edge-colour / line-width argument computation of the histogram
plotter (`create_histogram`).

Python floats are embedded as exact rationals; Python dictionaries as
association lists over an inductive value type `Val`; exceptions as
`Option` / `Except`.  Object identity (needed for the preset-registry
aliasing claims) is embedded by an explicit store of configurations
indexed by natural-number addresses.
-/
import Mathlib

/-- A Python value as it occurs in the configuration dictionaries:
strings, floats (as rationals), ints, bools, None, lists, tuples and
string-keyed dicts. -/
inductive Val : Type where
  | str : String → Val
  | rat : ℚ → Val
  | int : Int → Val
  | bool : Bool → Val
  | none : Val
  | list : List Val → Val
  | tuple : List Val → Val
  | dict : List (String × Val) → Val

/-- A Python dict with string keys, as an association list (keys unique,
insertion order kept, as in CPython). -/
abbrev PyDict : Type := List (String × Val)

/-- `d.get(k)` without the None-default: `none` when the key is absent. -/
def dictGet (d : PyDict) (k : String) : Option Val :=
  (d.find? (fun kv => kv.fst == k)).map Prod.snd

/-- `d[k] = v` for a key that may be present; replaces the value in place
(an absent key is left absent, callers only use this on present keys). -/
def dictSet (d : PyDict) (k : String) (v : Val) : PyDict :=
  d.map (fun kv => if kv.fst == k then (k, v) else kv)

/-- `d.get(k) is not None`: collapses an absent key and a stored `None`
to `none`, as Python `.get` followed by an `is not None` test does. -/
def getNonNone (d : PyDict) (k : String) : Option Val :=
  match dictGet d k with
  | some Val.none => none
  | v => v

/-- Python `tuple(v)`: converts any iterable to a tuple; non-iterables
(numbers, bools, None) raise a TypeError, embedded as `none`. -/
def pyTuple : Val → Option Val
  | Val.list xs => some (Val.tuple xs)
  | Val.tuple xs => some (Val.tuple xs)
  | Val.str s => some (Val.tuple (s.toList.map (fun ch => Val.str (String.mk [ch]))))
  | Val.dict kvs => some (Val.tuple (kvs.map (fun kv => Val.str kv.fst)))
  | _ => none

/-- The global plot configuration dataclass `PlotConfig`: one Lean field
per dataclass field, same order, same defaults (floats as exact
rationals). -/
structure PlotConfig : Type where
  version : String := "2.0"
  description : String := ""
  created : Option String := none
  figure_width : ℚ := 8
  figure_height : ℚ := 6
  dpi : Int := 100
  aspect_ratio : Option ℚ := none
  figure_facecolor : String := "#FFFFFF"
  axes_facecolor : String := "#FFFFFF"
  tick_label_size : ℚ := 10
  x_tick_label_size : Option ℚ := none
  y_tick_label_size : Option ℚ := none
  tick_label_family : String := "sans-serif"
  tick_label_weight : String := "normal"
  tick_label_color : String := "#000000"
  axis_label_size : ℚ := 12
  x_axis_label_size : Option ℚ := none
  y_axis_label_size : Option ℚ := none
  axis_label_family : String := "sans-serif"
  axis_label_weight : String := "normal"
  axis_label_color : String := "#000000"
  axis_label_style : String := "normal"
  title_size : ℚ := 14
  title_family : String := "sans-serif"
  title_weight : String := "normal"
  title_style : String := "normal"
  title_color : String := "#000000"
  title_pad : Option ℚ := none
  legend_font_size : ℚ := 10
  legend_font_family : String := "sans-serif"
  legend_font_weight : String := "normal"
  legend_title_weight : String := "bold"
  title : String := ""
  x_label : String := ""
  y_label : String := ""
  x_scale : String := "linear"
  y_scale : String := "linear"
  x_limits : Option (ℚ × ℚ) := none
  y_limits : Option (ℚ × ℚ) := none
  x_ticks : Option (List ℚ) := none
  y_ticks : Option (List ℚ) := none
  x_tick_labels : Option (List String) := none
  y_tick_labels : Option (List String) := none
  show_minor_ticks : Bool := false
  show_top_spine : Bool := true
  show_right_spine : Bool := true
  show_bottom_spine : Bool := true
  show_left_spine : Bool := true
  show_legend : Bool := true
  legend_location : String := "best"
  legend_frameon : Bool := true
  legend_framealpha : ℚ := 4/5
  legend_shadow : Bool := false
  show_grid : Bool := true
  grid_which : String := "major"
  grid_axis : String := "both"
  grid_alpha : ℚ := 3/10
  grid_style : String := "--"
  grid_linewidth : ℚ := 1/2
  grid_color : String := "#888888"
  tight_layout : Bool := true
  subplot_adjust : Option (List (String × ℚ)) := none
deriving DecidableEq, Repr

/-- The per-axis-size defaulting pass of `PlotConfig.__post_init__`:
each unset per-axis label size is filled from its shared fallback. -/
def fillSizes (r : PlotConfig) : PlotConfig :=
  let r1 := match r.x_tick_label_size with
    | none => { r with x_tick_label_size := some r.tick_label_size }
    | some _ => r
  let r2 := match r1.y_tick_label_size with
    | none => { r1 with y_tick_label_size := some r1.tick_label_size }
    | some _ => r1
  let r3 := match r2.x_axis_label_size with
    | none => { r2 with x_axis_label_size := some r2.axis_label_size }
    | some _ => r2
  match r3.y_axis_label_size with
  | none => { r3 with y_axis_label_size := some r3.axis_label_size }
  | some _ => r3

/-- The first statement of `PlotConfig.__post_init__`: stamp `created`
with the current time when it is unset. -/
def createStep (r : PlotConfig) (now : String) : PlotConfig :=
  match r.created with
  | none => { r with created := some now }
  | some _ => r

/-- The aspect-ratio statement of `PlotConfig.__post_init__`: when an
aspect ratio is given, recompute the height from the width (a zero
ratio is Python float division by zero, embedded as `none`), then run
the per-axis-size defaulting pass. -/
def aspectStep (r1 : PlotConfig) : Option PlotConfig :=
  match r1.aspect_ratio with
  | some a =>
      if a = 0 then none
      else some (fillSizes { r1 with figure_height := r1.figure_width / a })
  | none => some (fillSizes r1)

/-- `PlotConfig.__post_init__`: stamp `created`, apply the aspect
ratio, fill the per-axis sizes. -/
def postInit (r : PlotConfig) (now : String) : Option PlotConfig :=
  aspectStep (createStep r now)

/-! ### Encoders: `PlotConfig.to_dict` (`dataclasses.asdict` plus the
tuple-to-list conversion of the axis limits) -/

/-- Encode an optional string (None or str). -/
def encOptStr : Option String → Val
  | none => Val.none
  | some s => Val.str s

/-- Encode an optional float (None or float). -/
def encOptRat : Option ℚ → Val
  | none => Val.none
  | some q => Val.rat q

/-- Encode the axis limits as `to_dict` emits them: `None` stays None and
a pair becomes a LIST (the explicit tuple-to-list conversion for YAML). -/
def encLimits : Option (ℚ × ℚ) → Val
  | none => Val.none
  | some p => Val.list [Val.rat p.1, Val.rat p.2]

/-- Encode an optional list of floats (tick positions). -/
def encOptRatList : Option (List ℚ) → Val
  | none => Val.none
  | some l => Val.list (l.map Val.rat)

/-- Encode an optional list of strings (tick labels). -/
def encOptStrList : Option (List String) → Val
  | none => Val.none
  | some l => Val.list (l.map Val.str)

/-- Encode the optional `subplot_adjust` dict of floats. -/
def encAdjust : Option (List (String × ℚ)) → Val
  | none => Val.none
  | some kvs => Val.dict (kvs.map (fun kv => (kv.fst, Val.rat kv.snd)))

/-- `PlotConfig.to_dict`: every dataclass field in declaration order,
with the two limits tuples converted to lists. -/
def toDict (c : PlotConfig) : PyDict :=
  [ ("version", Val.str c.version),
    ("description", Val.str c.description),
    ("created", encOptStr c.created),
    ("figure_width", Val.rat c.figure_width),
    ("figure_height", Val.rat c.figure_height),
    ("dpi", Val.int c.dpi),
    ("aspect_ratio", encOptRat c.aspect_ratio),
    ("figure_facecolor", Val.str c.figure_facecolor),
    ("axes_facecolor", Val.str c.axes_facecolor),
    ("tick_label_size", Val.rat c.tick_label_size),
    ("x_tick_label_size", encOptRat c.x_tick_label_size),
    ("y_tick_label_size", encOptRat c.y_tick_label_size),
    ("tick_label_family", Val.str c.tick_label_family),
    ("tick_label_weight", Val.str c.tick_label_weight),
    ("tick_label_color", Val.str c.tick_label_color),
    ("axis_label_size", Val.rat c.axis_label_size),
    ("x_axis_label_size", encOptRat c.x_axis_label_size),
    ("y_axis_label_size", encOptRat c.y_axis_label_size),
    ("axis_label_family", Val.str c.axis_label_family),
    ("axis_label_weight", Val.str c.axis_label_weight),
    ("axis_label_color", Val.str c.axis_label_color),
    ("axis_label_style", Val.str c.axis_label_style),
    ("title_size", Val.rat c.title_size),
    ("title_family", Val.str c.title_family),
    ("title_weight", Val.str c.title_weight),
    ("title_style", Val.str c.title_style),
    ("title_color", Val.str c.title_color),
    ("title_pad", encOptRat c.title_pad),
    ("legend_font_size", Val.rat c.legend_font_size),
    ("legend_font_family", Val.str c.legend_font_family),
    ("legend_font_weight", Val.str c.legend_font_weight),
    ("legend_title_weight", Val.str c.legend_title_weight),
    ("title", Val.str c.title),
    ("x_label", Val.str c.x_label),
    ("y_label", Val.str c.y_label),
    ("x_scale", Val.str c.x_scale),
    ("y_scale", Val.str c.y_scale),
    ("x_limits", encLimits c.x_limits),
    ("y_limits", encLimits c.y_limits),
    ("x_ticks", encOptRatList c.x_ticks),
    ("y_ticks", encOptRatList c.y_ticks),
    ("x_tick_labels", encOptStrList c.x_tick_labels),
    ("y_tick_labels", encOptStrList c.y_tick_labels),
    ("show_minor_ticks", Val.bool c.show_minor_ticks),
    ("show_top_spine", Val.bool c.show_top_spine),
    ("show_right_spine", Val.bool c.show_right_spine),
    ("show_bottom_spine", Val.bool c.show_bottom_spine),
    ("show_left_spine", Val.bool c.show_left_spine),
    ("show_legend", Val.bool c.show_legend),
    ("legend_location", Val.str c.legend_location),
    ("legend_frameon", Val.bool c.legend_frameon),
    ("legend_framealpha", Val.rat c.legend_framealpha),
    ("legend_shadow", Val.bool c.legend_shadow),
    ("show_grid", Val.bool c.show_grid),
    ("grid_which", Val.str c.grid_which),
    ("grid_axis", Val.str c.grid_axis),
    ("grid_alpha", Val.rat c.grid_alpha),
    ("grid_style", Val.str c.grid_style),
    ("grid_linewidth", Val.rat c.grid_linewidth),
    ("grid_color", Val.str c.grid_color),
    ("tight_layout", Val.bool c.tight_layout),
    ("subplot_adjust", encAdjust c.subplot_adjust) ]

/-! ### Decoders: reading a field value out of a dict entry.  A present
value whose type does not fit the field is outside the typed embedding
and decodes to `none`; such values never arise from `to_dict`. -/

/-- Decode a string field. -/
def asStr : Val → Option String
  | Val.str s => some s
  | _ => none

/-- Decode a float field. -/
def asRat : Val → Option ℚ
  | Val.rat q => some q
  | _ => none

/-- Decode an int field. -/
def asInt : Val → Option Int
  | Val.int i => some i
  | _ => none

/-- Decode a bool field. -/
def asBool : Val → Option Bool
  | Val.bool b => some b
  | _ => none

/-- Decode an optional string field. -/
def asOptStr : Val → Option (Option String)
  | Val.none => some none
  | Val.str s => some (some s)
  | _ => none

/-- Decode an optional float field. -/
def asOptRat : Val → Option (Option ℚ)
  | Val.none => some none
  | Val.rat q => some (some q)
  | _ => none

/-- Decode an optional limits pair; by the time construction reads it,
`from_dict` has already turned a present list into a tuple. -/
def asOptPair : Val → Option (Option (ℚ × ℚ))
  | Val.none => some none
  | Val.tuple [Val.rat a, Val.rat b] => some (some (a, b))
  | _ => none

/-- Decode a list of floats. -/
def decRatList : List Val → Option (List ℚ)
  | [] => some []
  | v :: vs => do
      let q ← asRat v
      let qs ← decRatList vs
      pure (q :: qs)

/-- Decode a list of strings. -/
def decStrList : List Val → Option (List String)
  | [] => some []
  | v :: vs => do
      let s ← asStr v
      let ss ← decStrList vs
      pure (s :: ss)

/-- Decode an optional float-list field. -/
def asOptRatList : Val → Option (Option (List ℚ))
  | Val.none => some none
  | Val.list vs => (decRatList vs).map some
  | _ => none

/-- Decode an optional string-list field. -/
def asOptStrList : Val → Option (Option (List String))
  | Val.none => some none
  | Val.list vs => (decStrList vs).map some
  | _ => none

/-- Decode the entries of the `subplot_adjust` dict. -/
def decAdjustList : List (String × Val) → Option (List (String × ℚ))
  | [] => some []
  | kv :: kvs => do
      let q ← asRat kv.snd
      let qs ← decAdjustList kvs
      pure ((kv.fst, q) :: qs)

/-- Decode the optional `subplot_adjust` field. -/
def asAdjust : Val → Option (Option (List (String × ℚ)))
  | Val.none => some none
  | Val.dict kvs => (decAdjustList kvs).map some
  | _ => none

/-- Read one constructor keyword out of the dict: a missing key falls
back to the dataclass default (unknown extra keys are simply never
looked up, which is the signature-based filtering of `from_dict`). -/
def decodeFld {α : Type} (d : PyDict) (k : String) (dec : Val → Option α)
    (dflt : α) : Option α :=
  match dictGet d k with
  | none => some dflt
  | some v => dec v

/-- One keyword of `cls(**filtered_data)`: when `k` names a dataclass
field, decode the value into that field of `r` (an ill-typed present
value is outside the typed embedding and fails); any other key is
ignored, which is the signature-based filtering of `from_dict`. -/
def setFld (r : PlotConfig) (k : String) (v : Val) : Option PlotConfig :=
  if k == "version" then (asStr v).map (fun w => { r with version := w })
  else if k == "description" then (asStr v).map (fun w => { r with description := w })
  else if k == "created" then (asOptStr v).map (fun w => { r with created := w })
  else if k == "figure_width" then (asRat v).map (fun w => { r with figure_width := w })
  else if k == "figure_height" then (asRat v).map (fun w => { r with figure_height := w })
  else if k == "dpi" then (asInt v).map (fun w => { r with dpi := w })
  else if k == "aspect_ratio" then (asOptRat v).map (fun w => { r with aspect_ratio := w })
  else if k == "figure_facecolor" then (asStr v).map (fun w => { r with figure_facecolor := w })
  else if k == "axes_facecolor" then (asStr v).map (fun w => { r with axes_facecolor := w })
  else if k == "tick_label_size" then (asRat v).map (fun w => { r with tick_label_size := w })
  else if k == "x_tick_label_size" then (asOptRat v).map (fun w => { r with x_tick_label_size := w })
  else if k == "y_tick_label_size" then (asOptRat v).map (fun w => { r with y_tick_label_size := w })
  else if k == "tick_label_family" then (asStr v).map (fun w => { r with tick_label_family := w })
  else if k == "tick_label_weight" then (asStr v).map (fun w => { r with tick_label_weight := w })
  else if k == "tick_label_color" then (asStr v).map (fun w => { r with tick_label_color := w })
  else if k == "axis_label_size" then (asRat v).map (fun w => { r with axis_label_size := w })
  else if k == "x_axis_label_size" then (asOptRat v).map (fun w => { r with x_axis_label_size := w })
  else if k == "y_axis_label_size" then (asOptRat v).map (fun w => { r with y_axis_label_size := w })
  else if k == "axis_label_family" then (asStr v).map (fun w => { r with axis_label_family := w })
  else if k == "axis_label_weight" then (asStr v).map (fun w => { r with axis_label_weight := w })
  else if k == "axis_label_color" then (asStr v).map (fun w => { r with axis_label_color := w })
  else if k == "axis_label_style" then (asStr v).map (fun w => { r with axis_label_style := w })
  else if k == "title_size" then (asRat v).map (fun w => { r with title_size := w })
  else if k == "title_family" then (asStr v).map (fun w => { r with title_family := w })
  else if k == "title_weight" then (asStr v).map (fun w => { r with title_weight := w })
  else if k == "title_style" then (asStr v).map (fun w => { r with title_style := w })
  else if k == "title_color" then (asStr v).map (fun w => { r with title_color := w })
  else if k == "title_pad" then (asOptRat v).map (fun w => { r with title_pad := w })
  else if k == "legend_font_size" then (asRat v).map (fun w => { r with legend_font_size := w })
  else if k == "legend_font_family" then (asStr v).map (fun w => { r with legend_font_family := w })
  else if k == "legend_font_weight" then (asStr v).map (fun w => { r with legend_font_weight := w })
  else if k == "legend_title_weight" then (asStr v).map (fun w => { r with legend_title_weight := w })
  else if k == "title" then (asStr v).map (fun w => { r with title := w })
  else if k == "x_label" then (asStr v).map (fun w => { r with x_label := w })
  else if k == "y_label" then (asStr v).map (fun w => { r with y_label := w })
  else if k == "x_scale" then (asStr v).map (fun w => { r with x_scale := w })
  else if k == "y_scale" then (asStr v).map (fun w => { r with y_scale := w })
  else if k == "x_limits" then (asOptPair v).map (fun w => { r with x_limits := w })
  else if k == "y_limits" then (asOptPair v).map (fun w => { r with y_limits := w })
  else if k == "x_ticks" then (asOptRatList v).map (fun w => { r with x_ticks := w })
  else if k == "y_ticks" then (asOptRatList v).map (fun w => { r with y_ticks := w })
  else if k == "x_tick_labels" then (asOptStrList v).map (fun w => { r with x_tick_labels := w })
  else if k == "y_tick_labels" then (asOptStrList v).map (fun w => { r with y_tick_labels := w })
  else if k == "show_minor_ticks" then (asBool v).map (fun w => { r with show_minor_ticks := w })
  else if k == "show_top_spine" then (asBool v).map (fun w => { r with show_top_spine := w })
  else if k == "show_right_spine" then (asBool v).map (fun w => { r with show_right_spine := w })
  else if k == "show_bottom_spine" then (asBool v).map (fun w => { r with show_bottom_spine := w })
  else if k == "show_left_spine" then (asBool v).map (fun w => { r with show_left_spine := w })
  else if k == "show_legend" then (asBool v).map (fun w => { r with show_legend := w })
  else if k == "legend_location" then (asStr v).map (fun w => { r with legend_location := w })
  else if k == "legend_frameon" then (asBool v).map (fun w => { r with legend_frameon := w })
  else if k == "legend_framealpha" then (asRat v).map (fun w => { r with legend_framealpha := w })
  else if k == "legend_shadow" then (asBool v).map (fun w => { r with legend_shadow := w })
  else if k == "show_grid" then (asBool v).map (fun w => { r with show_grid := w })
  else if k == "grid_which" then (asStr v).map (fun w => { r with grid_which := w })
  else if k == "grid_axis" then (asStr v).map (fun w => { r with grid_axis := w })
  else if k == "grid_alpha" then (asRat v).map (fun w => { r with grid_alpha := w })
  else if k == "grid_style" then (asStr v).map (fun w => { r with grid_style := w })
  else if k == "grid_linewidth" then (asRat v).map (fun w => { r with grid_linewidth := w })
  else if k == "grid_color" then (asStr v).map (fun w => { r with grid_color := w })
  else if k == "tight_layout" then (asBool v).map (fun w => { r with tight_layout := w })
  else if k == "subplot_adjust" then (asAdjust v).map (fun w => { r with subplot_adjust := w })
  else some r

/-- Apply every dict entry to the record being constructed (keys are
unique in a Python dict, so this is exactly keyword passing: a present
key overrides the default, a missing key keeps it). -/
def applyAll : PlotConfig → PyDict → Option PlotConfig
  | r, [] => some r
  | r, kv :: rest =>
    match setFld r kv.fst kv.snd with
    | none => none
    | some r2 => applyAll r2 rest

/-- The `cls(**filtered_data)` step of `PlotConfig.from_dict`: all
defaults, overridden by the recognised keys of the dict, then
`__post_init__` runs. -/
def buildFrom (d : PyDict) (now : String) : Option PlotConfig :=
  match applyAll {} d with
  | none => none
  | some raw => postInit raw now

/-- The in-place list-to-tuple conversion `from_dict` performs on one
limits key: a present non-None value is passed to `tuple(...)` and
written back; `none` is the propagated TypeError of `tuple(...)` on a
non-iterable. -/
def tupleizeKey (k : String) (d : PyDict) : Option PyDict :=
  match getNonNone d k with
  | some v => (pyTuple v).map (dictSet d k)
  | none => some d

/-- `PlotConfig.from_dict`: mutate the caller dict in place (limits
lists become tuples), then construct with unknown keys filtered and
missing keys defaulted.  Returns the constructed config (or `none` for
a raised exception) together with the final state of the caller dict. -/
def from_dict (now : String) (d : PyDict) : Option PlotConfig × PyDict :=
  match tupleizeKey "x_limits" d with
  | none => (none, d)
  | some d1 =>
    match tupleizeKey "y_limits" d1 with
    | none => (none, d1)
    | some d2 => (buildFrom d2 now, d2)

/-- `PlotConfig.copy`: `from_dict(to_dict(self))`. -/
def PlotConfig.copy (c : PlotConfig) (now : String) : Option PlotConfig :=
  (from_dict now (toDict c)).fst

/-! ### The preset registry `PRESET_CONFIGS` and `get_preset_config`.
Python objects live on a heap; to state the aliasing/independence
properties the registry is embedded as a store of `PlotConfig` values
indexed by natural-number addresses.  The five presets occupy addresses
0..4; `get_preset_config` allocates a fresh address for the copy it
hands out. -/

/-- The keyword arguments of the `publication` preset. -/
def rawPublication : PlotConfig :=
  { figure_width := 6, figure_height := 9/2, dpi := 300,
    tick_label_size := 10, axis_label_size := 12, title_size := 14,
    grid_alpha := 1/5 }

/-- The keyword arguments of the `presentation` preset. -/
def rawPresentation : PlotConfig :=
  { figure_width := 10, figure_height := 15/2, dpi := 150,
    tick_label_size := 14, axis_label_size := 16, title_size := 18 }

/-- The keyword arguments of the `nature_style` preset. -/
def rawNature : PlotConfig :=
  { figure_width := 7/2, figure_height := 21/8, dpi := 300,
    tick_label_size := 7, axis_label_size := 8, title_size := 8,
    legend_font_size := 7, show_grid := false,
    show_top_spine := false, show_right_spine := false }

/-- The keyword arguments of the `science_style` preset. -/
def rawScience : PlotConfig :=
  { figure_width := 33/10, figure_height := 5/2, dpi := 300,
    tick_label_size := 6, axis_label_size := 7, title_size := 8,
    legend_font_size := 6, show_grid := false,
    show_top_spine := false, show_right_spine := false }

/-- The raw keyword arguments of the preset at each registry address. -/
def rawPreset : Nat → PlotConfig
  | 0 => {}
  | 1 => rawPublication
  | 2 => rawPresentation
  | 3 => rawNature
  | _ => rawScience

/-- The key order of the `PRESET_CONFIGS` dict. -/
def PRESET_NAMES : List String :=
  ["default", "publication", "presentation", "nature_style", "science_style"]

/-- Registry address of a preset name (`name in PRESET_CONFIGS`). -/
def presetIndex (name : String) : Option Nat :=
  if name == "default" then some 0
  else if name == "publication" then some 1
  else if name == "presentation" then some 2
  else if name == "nature_style" then some 3
  else if name == "science_style" then some 4
  else none

/-- A heap of `PlotConfig` objects: contents by address, plus the next
fresh address. -/
structure Store : Type where
  mem : Nat → PlotConfig
  next : Nat

/-- Allocate a fresh object, returning its address. -/
def Store.alloc (st : Store) (c : PlotConfig) : Nat × Store :=
  (st.next, ⟨fun i => if i = st.next then c else st.mem i, st.next + 1⟩)

/-- In-place mutation of the object at address `a` (any `setattr`,
including `PlotConfig.update`). -/
def Store.setAttr (st : Store) (a : Nat) (f : PlotConfig → PlotConfig) : Store :=
  ⟨fun i => if i = a then f (st.mem i) else st.mem i, st.next⟩

/-- The module-level state after `PRESET_CONFIGS` is built: the five
preset objects (constructed at import time `now`) sit at addresses
0..4 and the next fresh address is 5. -/
def initStore (now : String) : Store :=
  ⟨fun i => (postInit (rawPreset i) now).getD (rawPreset i), 5⟩

/-- `get_preset_config`: unknown names raise; a known name returns a
fresh copy (`PRESET_CONFIGS[preset_name].copy()`) allocated at a new
address, never the registry object itself. -/
def get_preset_config (name : String) (now : String) (st : Store) :
    Except String (Nat × Store) :=
  match presetIndex name with
  | none => Except.error ("Unknown preset: " ++ name)
  | some i =>
    match PlotConfig.copy (st.mem i) now with
    | none => Except.error "TypeError"
    | some c => Except.ok (st.alloc c)

/-! ### The per-series dataclass `SeriesConfig` -/

/-- The per-series configuration dataclass `SeriesConfig`: one Lean
field per dataclass field, same order, same defaults.  The numpy
arrays are embedded as lists of rationals. -/
structure SeriesConfig : Type where
  y : List ℚ
  x : Option (List ℚ) := none
  label : String := ""
  line_style : String := "-"
  line_width : ℚ := 3/2
  line_alpha : ℚ := 1
  marker : String := ""
  marker_size : ℚ := 6
  marker_facecolor : Option String := none
  marker_edgecolor : Option String := none
  marker_edgewidth : ℚ := 1/2
  hatch : Option String := none
  color : String := "#0066CC"
  fill_below : Bool := false
  fill_color : Option String := none
  fill_alpha : ℚ := 3/10
  fill_hatch : Option String := none
  hatch_color : Option String := none
  z_order : Option Int := none
deriving DecidableEq, Repr

/-- The colour-defaulting tail of `SeriesConfig.__post_init__`: unset
marker face/edge colours and fill colour become the series colour,
then an unset hatch colour becomes the (just resolved) fill colour. -/
def fillColors (s : SeriesConfig) : SeriesConfig :=
  let s1 := match s.marker_facecolor with
    | none => { s with marker_facecolor := some s.color }
    | some _ => s
  let s2 := match s1.marker_edgecolor with
    | none => { s1 with marker_edgecolor := some s1.color }
    | some _ => s1
  let s3 := match s2.fill_color with
    | none => { s2 with fill_color := some s2.color }
    | some _ => s2
  match s3.hatch_color with
  | none => { s3 with hatch_color := s3.fill_color }
  | some _ => s3

/-- `SeriesConfig.__post_init__`: when `x` is provided its length must
equal the length of `y` — a mismatch raises a ValueError carrying both
lengths — and then the colour defaults are resolved. -/
def seriesPostInit (s : SeriesConfig) : Except (Nat × Nat) SeriesConfig :=
  match s.x with
  | some xs =>
    if xs.length ≠ s.y.length then Except.error (xs.length, s.y.length)
    else Except.ok (fillColors s)
  | none => Except.ok (fillColors s)

/-- `SeriesConfig.copy`: re-construct from `self.x.copy()` (an
AttributeError — embedded as `none` — when `x` is None), `self.y.copy()`
and every explicitly listed styling field.  `hatch` is not among the
keywords passed, so the copy gets the default `None` for it.  The
re-construction runs `__post_init__` again. -/
def SeriesConfig.copy (s : SeriesConfig) : Option SeriesConfig :=
  match s.x with
  | none => none
  | some xs =>
    (seriesPostInit
      { y := s.y, x := some xs, label := s.label,
        line_style := s.line_style, line_width := s.line_width,
        line_alpha := s.line_alpha, marker := s.marker,
        marker_size := s.marker_size,
        marker_facecolor := s.marker_facecolor,
        marker_edgecolor := s.marker_edgecolor,
        marker_edgewidth := s.marker_edgewidth,
        color := s.color, fill_below := s.fill_below,
        fill_color := s.fill_color, fill_alpha := s.fill_alpha,
        fill_hatch := s.fill_hatch, hatch_color := s.hatch_color,
        z_order := s.z_order }).toOption

/-- `SeriesConfig.is_line_plot`. -/
def SeriesConfig.is_line_plot (s : SeriesConfig) : Bool :=
  s.line_style != ""

/-- `SeriesConfig.is_scatter_plot`. -/
def SeriesConfig.is_scatter_plot (s : SeriesConfig) : Bool :=
  s.marker != ""

/-- `SeriesConfig.get_plot_type`. -/
def SeriesConfig.get_plot_type (s : SeriesConfig) : String :=
  if s.is_line_plot && s.is_scatter_plot then "line+scatter"
  else if s.is_line_plot then "line"
  else if s.is_scatter_plot then "scatter"
  else "none"

/-! ### The line plotter and the histogram plotter -/

/-- The keyword arguments `_plot_series_on_axes` assembles for the one
`ax.plot` call. -/
structure PlotKwargs : Type where
  color : String
  label : Option String
  alpha : ℚ
  linestyle : String
  linewidth : Option ℚ
  marker : Option String
  markersize : Option ℚ
  markerfacecolor : Option String
  markeredgecolor : Option String
  markeredgewidth : Option ℚ
  zorder : Option Int
deriving DecidableEq, Repr

/-- The message of the ValueError raised by `_plot_series_on_axes` for
a series with neither a line nor a marker. -/
def noLineNoMarkerMsg (label : String) : String :=
  "Series " ++ label ++ " has no line and no marker! Must specify at least one."

/-- `_plot_series_on_axes` up to the `ax.plot` call: reject a series
with an empty line style and an empty marker, otherwise build the plot
keyword arguments from the series fields. -/
def plot_series_on_axes (s : SeriesConfig) : Except String PlotKwargs :=
  let has_line := s.line_style ≠ ""
  let has_marker := s.marker ≠ ""
  if ¬ has_line ∧ ¬ has_marker then
    Except.error (noLineNoMarkerMsg s.label)
  else
    Except.ok
      { color := s.color,
        label := if s.label ≠ "" then some s.label else none,
        alpha := s.line_alpha,
        linestyle := if has_line then s.line_style else "",
        linewidth := if has_line then some s.line_width else none,
        marker := if has_marker then some s.marker else none,
        markersize := if has_marker then some s.marker_size else none,
        markerfacecolor := if has_marker then s.marker_facecolor else none,
        markeredgecolor := if has_marker then s.marker_edgecolor else none,
        markeredgewidth := if has_marker then some s.marker_edgewidth else none,
        zorder := s.z_order }

/-- `create_histogram`: the per-series edge colours,
`s.marker_edgecolor if s.marker_edgecolor else 'black'`
(`None` and the empty string are falsy). -/
def histEdgecolors (ss : List SeriesConfig) : List String :=
  ss.map (fun s =>
    match s.marker_edgecolor with
    | some c => if c = "" then "black" else c
    | none => "black")

/-- `create_histogram`: the per-series edge widths,
`s.marker_edgewidth if s.marker_edgewidth else 0` (`0` is falsy). -/
def histLinewidths (ss : List SeriesConfig) : List ℚ :=
  ss.map (fun s => if s.marker_edgewidth = 0 then 0 else s.marker_edgewidth)

/-- `create_histogram`: the single `edgecolor` argument handed to
`ax.hist`: `edgecolors[0] if len(edgecolors) == 1 else 'black'`. -/
def histEdgecolorArg (ss : List SeriesConfig) : String :=
  match histEdgecolors ss with
  | [c] => c
  | _ => "black"

/-- `create_histogram`: the single `linewidth` argument handed to
`ax.hist`: `linewidths[0] if len(linewidths) == 1 else 0.5`. -/
def histLinewidthArg (ss : List SeriesConfig) : ℚ :=
  match histLinewidths ss with
  | [w] => w
  | _ => 1/2

/-- The invariant `__post_init__` establishes: `created` is stamped,
the per-axis sizes are filled, and a present aspect ratio is non-zero
with the height already derived from it. -/
def Constructed (c : PlotConfig) : Prop :=
  c.created ≠ none ∧ c.x_tick_label_size ≠ none ∧ c.y_tick_label_size ≠ none ∧
  c.x_axis_label_size ≠ none ∧ c.y_axis_label_size ≠ none ∧
  ∀ r, c.aspect_ratio = some r → r ≠ 0 ∧ c.figure_height = c.figure_width / r

/-- The invariant `SeriesConfig.__post_init__` establishes: all four
colour fields are resolved and a supplied `x` matches `y` in length. -/
def SeriesConstructed (s : SeriesConfig) : Prop :=
  s.marker_facecolor ≠ none ∧ s.marker_edgecolor ≠ none ∧
  s.fill_color ≠ none ∧ s.hatch_color ≠ none ∧
  ∀ xs, s.x = some xs → xs.length = s.y.length

/-! ### Concrete inputs used to witness the theorems -/

/-- A default-constructed configuration (a fixed construction time). -/
def cfg0 : PlotConfig := (postInit {} "2024-01-01T00:00:00").getD {}

/-- Keyword arguments with a width, an explicit height and an aspect
ratio. -/
def cfgAspectRaw : PlotConfig :=
  { figure_width := 8, figure_height := 77, aspect_ratio := some 2 }

/-- The configuration built from `cfgAspectRaw`. -/
def cfgAspect : PlotConfig := (postInit cfgAspectRaw "t0").getD {}

/-- A series carrying a bar hatch pattern. -/
def hatchSeriesRaw : SeriesConfig :=
  { y := [1, 2], x := some [0, 1], hatch := some "/" }

/-- A series with an explicit fill colour different from its primary
colour and no hatch colour. -/
def fillColorSeriesRaw : SeriesConfig := { y := [1], fill_color := some "#FF0000" }

/-- A series given only y-values (primary colour left at its default). -/
def seriesDefaultRaw : SeriesConfig := { y := [1] }

/-- Keyword arguments of a series with an empty line style and an empty
marker. -/
def emptySeriesRaw : SeriesConfig := { y := [1], line_style := "", marker := "" }

/-- The series built from `emptySeriesRaw`. -/
def emptySeries : SeriesConfig := fillColors emptySeriesRaw

/-- A constructed series with a custom colour and edge width. -/
def edgeSeries : SeriesConfig :=
  fillColors { y := [1], color := "#CC0000", marker_edgewidth := 2 }

/-- A constructed y-only series (as used for histograms). -/
def yOnlySeries : SeriesConfig := fillColors { y := [1, 2] }

/-- Keyword arguments of a series with both x and y supplied. -/
def xySeriesRaw : SeriesConfig := { y := [1, 2], x := some [3, 4] }

/-- A caller dictionary holding a list-valued `x_limits`, a None
`y_limits` and a key unknown to `PlotConfig`. -/
def d10 : PyDict :=
  [("x_limits", Val.list [Val.rat 1, Val.rat 2]), ("y_limits", Val.none),
   ("foo", Val.str "bar")]

/-! ### Helper lemmas -/

theorem asOptStr_enc (o : Option String) : asOptStr (encOptStr o) = some o := by
  cases o <;> rfl

theorem asOptRat_enc (o : Option ℚ) : asOptRat (encOptRat o) = some o := by
  cases o <;> rfl

theorem decRatList_enc (l : List ℚ) : decRatList (l.map Val.rat) = some l := by
  induction l with
  | nil => rfl
  | cons a as ih => simp [decRatList, asRat, ih]

theorem decStrList_enc (l : List String) : decStrList (l.map Val.str) = some l := by
  induction l with
  | nil => rfl
  | cons a as ih => simp [decStrList, asStr, ih]

theorem asOptRatList_enc (o : Option (List ℚ)) :
    asOptRatList (encOptRatList o) = some o := by
  cases o with
  | none => rfl
  | some l => simp [encOptRatList, asOptRatList, decRatList_enc]

theorem asOptStrList_enc (o : Option (List String)) :
    asOptStrList (encOptStrList o) = some o := by
  cases o with
  | none => rfl
  | some l => simp [encOptStrList, asOptStrList, decStrList_enc]

theorem decAdjustList_enc (l : List (String × ℚ)) :
    decAdjustList (l.map (fun kv => (kv.fst, Val.rat kv.snd))) = some l := by
  induction l with
  | nil => rfl
  | cons a as ih => simp [decAdjustList, asRat, ih]

theorem asAdjust_enc (o : Option (List (String × ℚ))) :
    asAdjust (encAdjust o) = some o := by
  cases o with
  | none => rfl
  | some l => simp [encAdjust, asAdjust, decAdjustList_enc]

set_option maxHeartbeats 4000000 in
/-- Dict round trip: on any configuration satisfying the constructed
invariant, `from_dict` applied to `to_dict` rebuilds the identical
configuration. -/
theorem roundtrip_fst (c : PlotConfig) (h : Constructed c) (now : String) :
    (from_dict now (toDict c)).fst = some c := by
  obtain ⟨h1, h2, h3, h4, h5, h6⟩ := h
  rcases c with ⟨f1, f2, f3, f4, f5, f6, f7, f8, f9, f10, f11, f12, f13, f14, f15,
    f16, f17, f18, f19, f20, f21, f22, f23, f24, f25, f26, f27, f28, f29, f30,
    f31, f32, f33, f34, f35, f36, f37, f38, f39, f40, f41, f42, f43, f44, f45,
    f46, f47, f48, f49, f50, f51, f52, f53, f54, f55, f56, f57, f58, f59, f60,
    f61, f62⟩
  simp only at h1 h2 h3 h4 h5 h6
  obtain ⟨t3, rfl⟩ := Option.ne_none_iff_exists'.mp h1
  obtain ⟨t11, rfl⟩ := Option.ne_none_iff_exists'.mp h2
  obtain ⟨t12, rfl⟩ := Option.ne_none_iff_exists'.mp h3
  obtain ⟨t17, rfl⟩ := Option.ne_none_iff_exists'.mp h4
  obtain ⟨t18, rfl⟩ := Option.ne_none_iff_exists'.mp h5
  rcases f7 with _ | a
  · rcases f38 with _ | ⟨xa, xb⟩ <;> rcases f39 with _ | ⟨ya, yb⟩ <;>
      simp [from_dict, toDict, tupleizeKey, getNonNone, dictGet, dictSet, pyTuple,
        encLimits, buildFrom, applyAll, setFld, asStr, asRat, asInt, asBool,
        asOptPair, asOptStr_enc, asOptRat_enc, asOptRatList_enc, asOptStrList_enc,
        asAdjust_enc, postInit, createStep, aspectStep, fillSizes, List.find?]
  · obtain ⟨ha0, hh⟩ := h6 a rfl
    subst hh
    rcases f38 with _ | ⟨xa, xb⟩ <;> rcases f39 with _ | ⟨ya, yb⟩ <;>
      simp [from_dict, toDict, tupleizeKey, getNonNone, dictGet, dictSet, pyTuple,
        encLimits, buildFrom, applyAll, setFld, asStr, asRat, asInt, asBool,
        asOptPair, asOptStr_enc, asOptRat_enc, asOptRatList_enc, asOptStrList_enc,
        asAdjust_enc, postInit, createStep, aspectStep, fillSizes, List.find?, ha0]

/-- `fillSizes` touches only the four per-axis sizes. -/
theorem fillSizes_other (r : PlotConfig) :
    (fillSizes r).created = r.created ∧
    (fillSizes r).aspect_ratio = r.aspect_ratio ∧
    (fillSizes r).figure_height = r.figure_height ∧
    (fillSizes r).figure_width = r.figure_width := by
  rcases h11 : r.x_tick_label_size with _ | a1 <;>
    rcases h12 : r.y_tick_label_size with _ | a2 <;>
    rcases h17 : r.x_axis_label_size with _ | a3 <;>
    rcases h18 : r.y_axis_label_size with _ | a4 <;>
    simp [fillSizes, h11, h12, h17, h18]

/-- `fillSizes` establishes the four size components of the invariant
and preserves the rest when already established. -/
theorem constructed_fillSizes (r : PlotConfig)
    (hc : r.created ≠ none)
    (ha : ∀ q, r.aspect_ratio = some q → q ≠ 0 ∧ r.figure_height = r.figure_width / q) :
    Constructed (fillSizes r) := by
  obtain ⟨e1, e2, e3, e4⟩ := fillSizes_other r
  refine ⟨by simp [e1, hc], ?_, ?_, ?_, ?_, ?_⟩
  · rcases h11 : r.x_tick_label_size with _ | a1 <;>
      rcases h12 : r.y_tick_label_size with _ | a2 <;>
      rcases h17 : r.x_axis_label_size with _ | a3 <;>
      rcases h18 : r.y_axis_label_size with _ | a4 <;>
      simp [fillSizes, h11, h12, h17, h18]
  · rcases h11 : r.x_tick_label_size with _ | a1 <;>
      rcases h12 : r.y_tick_label_size with _ | a2 <;>
      rcases h17 : r.x_axis_label_size with _ | a3 <;>
      rcases h18 : r.y_axis_label_size with _ | a4 <;>
      simp [fillSizes, h11, h12, h17, h18]
  · rcases h11 : r.x_tick_label_size with _ | a1 <;>
      rcases h12 : r.y_tick_label_size with _ | a2 <;>
      rcases h17 : r.x_axis_label_size with _ | a3 <;>
      rcases h18 : r.y_axis_label_size with _ | a4 <;>
      simp [fillSizes, h11, h12, h17, h18]
  · rcases h11 : r.x_tick_label_size with _ | a1 <;>
      rcases h12 : r.y_tick_label_size with _ | a2 <;>
      rcases h17 : r.x_axis_label_size with _ | a3 <;>
      rcases h18 : r.y_axis_label_size with _ | a4 <;>
      simp [fillSizes, h11, h12, h17, h18]
  · intro q hq
    rw [e2] at hq
    rw [e3, e4]
    exact ha q hq

/-- `createStep` stamps `created` and touches nothing else. -/
theorem createStep_other (r : PlotConfig) (now : String) :
    (createStep r now).aspect_ratio = r.aspect_ratio ∧
    (createStep r now).figure_width = r.figure_width ∧
    (createStep r now).figure_height = r.figure_height ∧
    (createStep r now).created ≠ none := by
  rcases hr : r.created with _ | t <;> simp [createStep, hr]

/-- Whatever `aspectStep` returns satisfies the constructed invariant
(provided `created` is already stamped). -/
theorem aspectStep_constructed (r1 : PlotConfig) (hc : r1.created ≠ none)
    (c : PlotConfig) (h : aspectStep r1 = some c) : Constructed c := by
  unfold aspectStep at h
  rcases haspect : r1.aspect_ratio with _ | a <;> simp only [haspect] at h
  · obtain rfl := Option.some.inj h
    apply constructed_fillSizes r1 hc
    intro q hq
    rw [haspect] at hq
    cases hq
  · by_cases ha : a = 0
    · rw [if_pos ha] at h
      cases h
    · rw [if_neg ha] at h
      obtain rfl := Option.some.inj h
      apply constructed_fillSizes _ (by simpa using hc)
      intro q hq
      simp only at hq
      obtain rfl := Option.some.inj hq
      exact ⟨ha, by simp⟩

/-- Every successful `__post_init__` yields a configuration satisfying
the constructed invariant. -/
theorem postInit_constructed (r : PlotConfig) (now : String) (c : PlotConfig)
    (h : postInit r now = some c) : Constructed c :=
  aspectStep_constructed (createStep r now) (createStep_other r now).2.2.2 c h

/-- How `__post_init__` treats the height: derived from width and
aspect ratio when one is given, untouched otherwise. -/
theorem postInit_height (r : PlotConfig) (now : String) (c : PlotConfig)
    (h : postInit r now = some c) :
    (∀ q, r.aspect_ratio = some q → c.figure_height = r.figure_width / q) ∧
    (r.aspect_ratio = none → c.figure_height = r.figure_height) := by
  obtain ⟨e1, e2, e3, _⟩ := createStep_other r now
  unfold postInit aspectStep at h
  rcases ha : (createStep r now).aspect_ratio with _ | a <;> simp only [ha] at h
  · obtain rfl := Option.some.inj h
    constructor
    · intro q hq
      rw [e1] at ha
      rw [ha] at hq
      cases hq
    · intro _
      rw [(fillSizes_other _).2.2.1, e3]
  · by_cases h0 : a = 0
    · rw [if_pos h0] at h
      cases h
    · rw [if_neg h0] at h
      obtain rfl := Option.some.inj h
      constructor
      · intro q hq
        rw [e1] at ha
        rw [ha] at hq
        obtain rfl := Option.some.inj hq
        rw [(fillSizes_other _).2.2.1]
        simp [e2]
      · intro hnone
        rw [e1, hnone] at ha
        cases ha
  
/-- `__post_init__` always succeeds when no aspect ratio is given. -/
theorem postInit_isSome (r : PlotConfig) (now : String)
    (ha : r.aspect_ratio = none) :
    postInit r now = some ((postInit r now).getD r) := by
  obtain ⟨e1, _, _, _⟩ := createStep_other r now
  unfold postInit aspectStep
  rw [e1, ha]
  rfl

/-! ### Lemmas on the series dataclass -/

/-- `fillColors` touches only the four colour-default fields. -/
theorem fillColors_other (s : SeriesConfig) :
    (fillColors s).y = s.y ∧ (fillColors s).x = s.x ∧
    (fillColors s).label = s.label ∧
    (fillColors s).line_style = s.line_style ∧
    (fillColors s).line_width = s.line_width ∧
    (fillColors s).line_alpha = s.line_alpha ∧
    (fillColors s).marker = s.marker ∧
    (fillColors s).marker_size = s.marker_size ∧
    (fillColors s).marker_edgewidth = s.marker_edgewidth ∧
    (fillColors s).hatch = s.hatch ∧
    (fillColors s).color = s.color ∧
    (fillColors s).fill_below = s.fill_below ∧
    (fillColors s).fill_alpha = s.fill_alpha ∧
    (fillColors s).fill_hatch = s.fill_hatch ∧
    (fillColors s).z_order = s.z_order := by
  rcases h1 : s.marker_facecolor with _ | c1 <;>
    rcases h2 : s.marker_edgecolor with _ | c2 <;>
    rcases h3 : s.fill_color with _ | c3 <;>
    rcases h4 : s.hatch_color with _ | c4 <;>
    simp [fillColors, h1, h2, h3, h4]

/-- What `fillColors` does to the four colour-default fields. -/
theorem fillColors_colors (s : SeriesConfig) :
    (s.marker_facecolor = none → (fillColors s).marker_facecolor = some s.color) ∧
    (s.marker_edgecolor = none → (fillColors s).marker_edgecolor = some s.color) ∧
    (s.fill_color = none → (fillColors s).fill_color = some s.color) ∧
    (s.hatch_color = none → (fillColors s).hatch_color = (fillColors s).fill_color) ∧
    (fillColors s).marker_facecolor ≠ none ∧
    (fillColors s).marker_edgecolor ≠ none ∧
    (fillColors s).fill_color ≠ none ∧
    (fillColors s).hatch_color ≠ none := by
  rcases h1 : s.marker_facecolor with _ | c1 <;>
    rcases h2 : s.marker_edgecolor with _ | c2 <;>
    rcases h3 : s.fill_color with _ | c3 <;>
    rcases h4 : s.hatch_color with _ | c4 <;>
    simp [fillColors, h1, h2, h3, h4]

/-- `fillColors` is the identity once all four colour fields are set. -/
theorem fillColors_id (s : SeriesConfig) (h1 : s.marker_facecolor ≠ none)
    (h2 : s.marker_edgecolor ≠ none) (h3 : s.fill_color ≠ none)
    (h4 : s.hatch_color ≠ none) : fillColors s = s := by
  rcases g1 : s.marker_facecolor with _ | c1
  · exact absurd g1 h1
  rcases g2 : s.marker_edgecolor with _ | c2
  · exact absurd g2 h2
  rcases g3 : s.fill_color with _ | c3
  · exact absurd g3 h3
  rcases g4 : s.hatch_color with _ | c4
  · exact absurd g4 h4
  simp [fillColors, g1, g2, g3, g4]

/-- A successful `SeriesConfig.__post_init__` returns `fillColors` of
the raw record, and certifies the length match. -/
theorem seriesPostInit_ok (raw s : SeriesConfig)
    (h : seriesPostInit raw = Except.ok s) :
    s = fillColors raw ∧ ∀ xs, raw.x = some xs → xs.length = raw.y.length := by
  unfold seriesPostInit at h
  rcases hx : raw.x with _ | xs <;> simp only [hx] at h
  · refine ⟨(Except.ok.inj h).symm, ?_⟩
    intro xs hxs
    cases hxs
  · split at h
    · cases h
    · rename_i hne
      refine ⟨(Except.ok.inj h).symm, ?_⟩
      intro xs2 hxs2
      obtain rfl := Option.some.inj hxs2
      exact not_ne_iff.mp hne

/-- Every successfully constructed series satisfies the invariant. -/
theorem seriesPostInit_constructed (raw s : SeriesConfig)
    (h : seriesPostInit raw = Except.ok s) : SeriesConstructed s := by
  obtain ⟨rfl, hlen⟩ := seriesPostInit_ok raw s h
  obtain ⟨hy, hx, _⟩ := fillColors_other raw
  obtain ⟨_, _, _, _, k1, k2, k3, k4⟩ := fillColors_colors raw
  refine ⟨k1, k2, k3, k4, ?_⟩
  intro xs hxs
  rw [hx] at hxs
  rw [hy]
  exact hlen xs hxs

/-- On a constructed series whose `x` is present, `copy` succeeds and
returns the series with every field preserved except `hatch`, which
falls back to its default `None`. -/
theorem copy_of_constructed (s : SeriesConfig) (hs : SeriesConstructed s)
    (xs : List ℚ) (hx : s.x = some xs) :
    SeriesConfig.copy s = some { s with hatch := none } := by
  obtain ⟨h1, h2, h3, h4, h5⟩ := hs
  have hlen : xs.length = s.y.length := h5 xs hx
  unfold SeriesConfig.copy
  rw [hx]
  unfold seriesPostInit
  simp only [hlen]
  rw [fillColors_id _ (by simpa using h1) (by simpa using h2)
    (by simpa using h3) (by simpa using h4)]
  rw [← hx]
  simp [Except.toOption]

/-! ### Dict lemmas -/

/-- Writing one key leaves every other key untouched. -/
theorem dictGet_dictSet_ne (d : PyDict) (k k2 : String) (v : Val)
    (h : k2 ≠ k) : dictGet (dictSet d k v) k2 = dictGet d k2 := by
  induction d with
  | nil => rfl
  | cons kv rest ih =>
    obtain ⟨a, w⟩ := kv
    by_cases hk : a = k
    · subst hk
      have h2 : (a == k2) = false := beq_eq_false_iff_ne.mpr (fun e => h e.symm)
      simp [dictGet, dictSet, List.find?, h2] at ih ⊢
      exact ih
    · have hk2 : (a == k) = false := beq_eq_false_iff_ne.mpr hk
      by_cases h3 : a = k2
      · subst h3
        simp [dictGet, dictSet, List.find?, hk2]
      · have h4 : (a == k2) = false := beq_eq_false_iff_ne.mpr h3
        simp [dictGet, dictSet, List.find?, hk2, h4] at ih ⊢
        exact ih

/-- Writing a present key rewrites the stored pair. -/
theorem find?_dictSet_self (d : PyDict) (k : String) (v : Val)
    (h : (d.find? (fun kv => kv.fst == k)).isSome) :
    (dictSet d k v).find? (fun kv => kv.fst == k) = some (k, v) := by
  induction d with
  | nil => simp at h
  | cons kv rest ih =>
    obtain ⟨a, w2⟩ := kv
    unfold dictSet at ih ⊢
    rw [List.map_cons]
    by_cases hk : a = k
    · subst hk
      rw [if_pos (by simp)]
      exact List.find?_cons_of_pos _ (by simp)
    · have hp : ¬((a, w2).fst == k) = true := by simpa using hk
      rw [if_neg hp, @List.find?_cons_of_neg _ (fun kv => kv.fst == k) (a, w2) _ hp]
      apply ih
      rwa [@List.find?_cons_of_neg _ (fun kv => kv.fst == k) (a, w2) _ hp] at h

/-- Writing a present key makes a later read return the new value. -/
theorem dictGet_dictSet_self (d : PyDict) (k : String) (v : Val)
    (h : (dictGet d k).isSome) : dictGet (dictSet d k v) k = some v := by
  have h2 : (d.find? (fun kv => kv.fst == k)).isSome := by
    rcases ho : d.find? (fun kv => kv.fst == k) with _ | p
    · rw [dictGet, ho] at h
      simp at h
    · rw [ho]
      rfl
  rw [dictGet, find?_dictSet_self d k v h2]
  rfl

/-- How the in-place `tuple(...)` conversion treats one limits key. -/
theorem tupleizeKey_spec (k : String) (d : PyDict) :
    (dictGet d k = none → tupleizeKey k d = some d) ∧
    (dictGet d k = some Val.none → tupleizeKey k d = some d) ∧
    (∀ xs, dictGet d k = some (Val.list xs) →
      tupleizeKey k d = some (dictSet d k (Val.tuple xs))) := by
  refine ⟨?_, ?_, ?_⟩
  · intro h
    simp [tupleizeKey, getNonNone, h]
  · intro h
    simp [tupleizeKey, getNonNone, h]
  · intro xs h
    simp [tupleizeKey, getNonNone, h, pyTuple]

/-- No preset passes an aspect ratio. -/
theorem rawPreset_aspect (i : Nat) : (rawPreset i).aspect_ratio = none := by
  match i with
  | 0 => rfl
  | 1 => rfl
  | 2 => rfl
  | 3 => rfl
  | n + 4 => rfl

/-- Every registry slot holds a successfully constructed preset. -/
theorem initStore_constructed (now : String) (i : Nat) :
    postInit (rawPreset i) now = some ((initStore now).mem i) :=
  postInit_isSome (rawPreset i) now (rawPreset_aspect i)

/-- `get_preset_config` on a known name returns a freshly allocated
copy whose value is the registry value. -/
theorem get_preset_eq (name : String) (i : Nat) (hname : presetIndex name = some i)
    (st : Store) (now : String) (hst : Constructed (st.mem i)) :
    get_preset_config name now st = Except.ok (st.alloc (st.mem i)) := by
  have hcopy : PlotConfig.copy (st.mem i) now = some (st.mem i) :=
    roundtrip_fst (st.mem i) hst now
  simp [get_preset_config, hname, hcopy]

/-- The limits mutation of `from_dict` on one key, for a dict whose
entry at that key (if any) is None or a list. -/
theorem tupleizeKey_listOrNone (k : String) (d : PyDict)
    (h : ∀ v, dictGet d k = some v → v = Val.none ∨ ∃ xs, v = Val.list xs) :
    ∃ d1, tupleizeKey k d = some d1 ∧
      (∀ xs, dictGet d k = some (Val.list xs) → dictGet d1 k = some (Val.tuple xs)) ∧
      (∀ k2, k2 ≠ k → dictGet d1 k2 = dictGet d k2) := by
  rcases hg : dictGet d k with _ | v
  · refine ⟨d, (tupleizeKey_spec k d).1 hg, ?_, fun k2 _ => rfl⟩
    intro xs hxs
    simp at hxs
  · rcases h v hg with rfl | ⟨xs, rfl⟩
    · refine ⟨d, (tupleizeKey_spec k d).2.1 hg, ?_, fun k2 _ => rfl⟩
      intro xs hxs
      simp at hxs
    · refine ⟨dictSet d k (Val.tuple xs), (tupleizeKey_spec k d).2.2 xs hg, ?_, ?_⟩
      · intro xs2 hxs2
        obtain rfl : xs = xs2 := by simpa using hxs2
        exact dictGet_dictSet_self d k _ (by simp [hg])
      · intro k2 hk2
        exact dictGet_dictSet_ne d k k2 _ hk2

/-! ### The claims -/

/-- Claim C1: for every PlotConfig value (i.e. every configuration a
successful construction returns), exporting it with `to_dict` and
re-importing the result with `from_dict` yields a PlotConfig equal to
the original in every field. -/
theorem C1_to_dict_from_dict_roundtrip (raw : PlotConfig) (now now2 : String)
    (c : PlotConfig) (h : postInit raw now = some c) :
    (from_dict now2 (toDict c)).fst = some c :=
  roundtrip_fst c (postInit_constructed raw now c h) now2

/-- Witness for C1 at the default-constructed configuration. -/
theorem C1_to_dict_from_dict_roundtrip_witness :
    (from_dict "2024-06-01T00:00:00" (toDict cfg0)).fst = some cfg0 :=
  C1_to_dict_from_dict_roundtrip {} "2024-01-01T00:00:00" "2024-06-01T00:00:00"
    cfg0 (postInit_isSome {} "2024-01-01T00:00:00" rfl)

/-- Claim C2 (code bug): on a constructed series carrying a hatch
pattern, `copy()` returns a series whose `hatch` is None — the `hatch`
keyword is missing from the field list `copy` passes to the
constructor, so the copy does not preserve every styling field. -/
theorem C2_copy_drops_hatch :
    (seriesPostInit hatchSeriesRaw).toOption.map
        (fun s => (s.hatch, (SeriesConfig.copy s).map (fun t => t.hatch)))
      = some (some "/", some none) := by decide

/-- Claim C3: when both x and y are supplied, construction fails with
an error carrying both lengths exactly when the lengths differ. -/
theorem C3_series_length_validation (s : SeriesConfig) (xs : List ℚ)
    (hx : s.x = some xs) :
    (xs.length ≠ s.y.length →
      seriesPostInit s = Except.error (xs.length, s.y.length)) ∧
    (xs.length = s.y.length → ∃ t, seriesPostInit s = Except.ok t) := by
  constructor
  · intro hne
    simp [seriesPostInit, hx, hne]
  · intro he
    exact ⟨fillColors s, by simp [seriesPostInit, hx, he]⟩

/-- Witness for C3: a 3-vs-2 mismatch fails with both lengths, a 2-vs-2
match succeeds. -/
theorem C3_series_length_validation_witness :
    seriesPostInit { y := [10, 20], x := some [1, 2, 3] } = Except.error (3, 2) ∧
    ∃ t, seriesPostInit { y := ([10, 20] : List ℚ), x := some [1, 2] } = Except.ok t :=
  ⟨(C3_series_length_validation _ [1, 2, 3] rfl).1 (by decide),
   (C3_series_length_validation _ [1, 2] rfl).2 rfl⟩

/-- Counterexample to C4 as stated: a series whose fill colour is set
to a colour different from the primary colour and whose hatch colour
is left unset gets hatch colour = fill colour, not the primary
colour. -/
theorem C4_hatch_color_counterexample :
    fillColorSeriesRaw.hatch_color = none ∧
    fillColorSeriesRaw.color = "#0066CC" ∧
    (seriesPostInit fillColorSeriesRaw).toOption.map (fun t => t.hatch_color)
        = some (some "#FF0000") ∧
    (seriesPostInit fillColorSeriesRaw).toOption.map (fun t => t.hatch_color)
        ≠ some (some fillColorSeriesRaw.color) := by decide

/-- Claim C4 (amended): unset marker face/edge and fill colours default
to the primary colour; an unset hatch colour defaults to the resolved
fill colour (hence to the primary colour exactly when the fill colour
was also unset); in particular a construction leaving all four unset
yields all four equal to the primary colour. -/
theorem C4_color_defaults (raw s : SeriesConfig)
    (h : seriesPostInit raw = Except.ok s) :
    (raw.marker_facecolor = none → s.marker_facecolor = some raw.color) ∧
    (raw.marker_edgecolor = none → s.marker_edgecolor = some raw.color) ∧
    (raw.fill_color = none → s.fill_color = some raw.color) ∧
    (raw.hatch_color = none → s.hatch_color = s.fill_color) ∧
    (raw.marker_facecolor = none → raw.marker_edgecolor = none →
      raw.fill_color = none → raw.hatch_color = none →
      s.marker_facecolor = some raw.color ∧ s.marker_edgecolor = some raw.color ∧
      s.fill_color = some raw.color ∧ s.hatch_color = some raw.color) := by
  obtain ⟨rfl, _⟩ := seriesPostInit_ok raw s h
  obtain ⟨k1, k2, k3, k4, _⟩ := fillColors_colors raw
  refine ⟨k1, k2, k3, k4, ?_⟩
  intro m1 m2 m3 m4
  refine ⟨k1 m1, k2 m2, k3 m3, ?_⟩
  rw [k4 m4, k3 m3]

/-- Witness for C4 (amended) at a y-only series with the default
primary colour. -/
theorem C4_color_defaults_witness :
    (fillColors seriesDefaultRaw).marker_facecolor = some "#0066CC" ∧
    (fillColors seriesDefaultRaw).marker_edgecolor = some "#0066CC" ∧
    (fillColors seriesDefaultRaw).fill_color = some "#0066CC" ∧
    (fillColors seriesDefaultRaw).hatch_color = some "#0066CC" :=
  (C4_color_defaults seriesDefaultRaw (fillColors seriesDefaultRaw)
    rfl).2.2.2.2 rfl rfl rfl rfl

/-- Claim C5: a non-None aspect ratio makes the constructed height
width / ratio, overriding any explicitly passed height; with no aspect
ratio the passed height is kept. -/
theorem C5_aspect_ratio_overrides_height (raw : PlotConfig) (now : String)
    (c : PlotConfig) (h : postInit raw now = some c) :
    (∀ q, raw.aspect_ratio = some q → c.figure_height = raw.figure_width / q) ∧
    (raw.aspect_ratio = none → c.figure_height = raw.figure_height) :=
  postInit_height raw now c h

/-- Witness for C5: width 8, ratio 2, explicitly passed height 77; the
constructed height is 4. -/
theorem C5_aspect_ratio_overrides_height_witness :
    cfgAspect.figure_height = 8 / 2 ∧ cfgAspect.figure_height ≠ 77 := by
  have h := (C5_aspect_ratio_overrides_height cfgAspectRaw "t0" cfgAspect rfl).1 2 rfl
  refine ⟨h, ?_⟩
  rw [h]
  simp only [cfgAspectRaw]
  norm_num

/-- Claim C6: a series with an empty line style and an empty marker is
accepted at construction time (classified `none` by `get_plot_type`),
and the line renderer rejects it with an error naming the series. -/
theorem C6_empty_style_rejected_at_draw_time (raw : SeriesConfig)
    (hl : raw.line_style = "") (hm : raw.marker = "")
    (hlen : ∀ xs, raw.x = some xs → xs.length = raw.y.length) :
    (seriesPostInit raw).toOption.isSome ∧
    ∀ s, seriesPostInit raw = Except.ok s →
      s.get_plot_type = "none" ∧
      plot_series_on_axes s = Except.error (noLineNoMarkerMsg s.label) := by
  constructor
  · rcases hx : raw.x with _ | xs
    · simp [seriesPostInit, hx, Except.toOption]
    · simp [seriesPostInit, hx, hlen xs hx, Except.toOption]
  · intro s h
    obtain ⟨rfl, _⟩ := seriesPostInit_ok raw s h
    obtain ⟨_, _, _, hls, _, _, hmk, _⟩ := fillColors_other raw
    constructor
    · simp [SeriesConfig.get_plot_type, SeriesConfig.is_line_plot,
        SeriesConfig.is_scatter_plot, hls, hmk, hl, hm]
    · simp [plot_series_on_axes, hls, hmk, hl, hm]

/-- Witness for C6 at a concrete y-only series with both styles empty. -/
theorem C6_empty_style_rejected_at_draw_time_witness :
    (seriesPostInit emptySeriesRaw).toOption.isSome ∧
    emptySeries.get_plot_type = "none" ∧
    plot_series_on_axes emptySeries = Except.error (noLineNoMarkerMsg "") := by
  have h := C6_empty_style_rejected_at_draw_time emptySeriesRaw rfl rfl
    (by intro xs hxs; simp [emptySeriesRaw] at hxs)
  exact ⟨h.1, (h.2 emptySeries rfl).1, (h.2 emptySeries rfl).2⟩

/-- Claim C7: retrieving a named preset twice yields two distinct fresh
objects with the same value; mutating any field of the first leaves the
second — and every registry entry — untouched. -/
theorem C7_preset_copy_on_read (name now0 now1 now2 : String)
    (h : name ∈ PRESET_NAMES) :
    ∃ a1 st1 a2 st2,
      get_preset_config name now1 (initStore now0) = Except.ok (a1, st1) ∧
      get_preset_config name now2 st1 = Except.ok (a2, st2) ∧
      a1 ≠ a2 ∧ st2.mem a1 = st2.mem a2 ∧
      ∀ f : PlotConfig → PlotConfig,
        (st2.setAttr a1 f).mem a2 = st2.mem a2 ∧
        ∀ j, j < 5 → (st2.setAttr a1 f).mem j = (initStore now0).mem j := by
  have hidx : ∃ i, i < 5 ∧ presetIndex name = some i := by
    have h5 : name = "default" ∨ name = "publication" ∨ name = "presentation" ∨
        name = "nature_style" ∨ name = "science_style" := by
      simpa [PRESET_NAMES] using h
    rcases h5 with rfl | rfl | rfl | rfl | rfl
    · exact ⟨0, by omega, by decide⟩
    · exact ⟨1, by omega, by decide⟩
    · exact ⟨2, by omega, by decide⟩
    · exact ⟨3, by omega, by decide⟩
    · exact ⟨4, by omega, by decide⟩
  obtain ⟨i, hi5, hname⟩ := hidx
  have hsome0 : postInit (rawPreset i) now0 = some ((initStore now0).mem i) :=
    initStore_constructed now0 i
  have hC0 : Constructed ((initStore now0).mem i) :=
    postInit_constructed _ _ _ hsome0
  have e1 := get_preset_eq name i hname (initStore now0) now1 hC0
  have hm1 : (((initStore now0).alloc ((initStore now0).mem i)).2).mem i
      = (initStore now0).mem i := by
    simp [Store.alloc]
  have hC1 : Constructed ((((initStore now0).alloc ((initStore now0).mem i)).2).mem i) := by
    rw [hm1]
    exact hC0
  have e2 := get_preset_eq name i hname
    (((initStore now0).alloc ((initStore now0).mem i)).2) now2 hC1
  refine ⟨5, _, 6, _, e1, e2, by decide, ?_, ?_⟩
  · simp [Store.alloc, initStore]
  · intro f
    constructor
    · simp [Store.setAttr, Store.alloc, initStore]
    · intro j hj
      have hj5 : j ≠ 5 := by omega
      have hj6 : j ≠ 6 := by omega
      simp [Store.setAttr, Store.alloc, initStore, hj5, hj6]

/-- Witness for C7 at the `nature_style` preset and fixed times. -/
theorem C7_preset_copy_on_read_witness :
    ∃ a1 st1 a2 st2,
      get_preset_config "nature_style" "t1" (initStore "t0") = Except.ok (a1, st1) ∧
      get_preset_config "nature_style" "t2" st1 = Except.ok (a2, st2) ∧
      a1 ≠ a2 ∧ st2.mem a1 = st2.mem a2 ∧
      ∀ f : PlotConfig → PlotConfig,
        (st2.setAttr a1 f).mem a2 = st2.mem a2 ∧
        ∀ j, j < 5 → (st2.setAttr a1 f).mem j = (initStore "t0").mem j :=
  C7_preset_copy_on_read "nature_style" "t0" "t1" "t2" (by decide)

/-- Claim C8: the histogram renderer applies the per-series edge colour
and edge width only when exactly one series is present; with two or
more series it always hands `black` and `0.5` to the draw call, no
matter what the series specify. -/
theorem C8_hist_per_series_edge_only_single (s : SeriesConfig) (c : String) :
    (s.marker_edgecolor = some c → c ≠ "" → histEdgecolorArg [s] = c) ∧
    (s.marker_edgewidth ≠ 0 → histLinewidthArg [s] = s.marker_edgewidth) ∧
    ∀ (s2 : SeriesConfig) (rest : List SeriesConfig),
      histEdgecolorArg (s :: s2 :: rest) = "black" ∧
      histLinewidthArg (s :: s2 :: rest) = 1/2 := by
  refine ⟨?_, ?_, ?_⟩
  · intro hmec hne
    simp [histEdgecolorArg, histEdgecolors, hmec, hne]
  · intro hw
    simp [histLinewidthArg, histLinewidths, hw]
  · intro s2 rest
    exact ⟨rfl, rfl⟩

/-- Witness for C8: a single red series keeps its overrides, two series
fall back to the shared values. -/
theorem C8_hist_per_series_edge_only_single_witness :
    histEdgecolorArg [edgeSeries] = "#CC0000" ∧
    histLinewidthArg [edgeSeries] = 2 ∧
    histEdgecolorArg [edgeSeries, edgeSeries] = "black" ∧
    histLinewidthArg [edgeSeries, edgeSeries] = 1/2 := by
  have h := C8_hist_per_series_edge_only_single edgeSeries "#CC0000"
  exact ⟨h.1 rfl (by decide), h.2.1 (by norm_num [edgeSeries, fillColors]),
    (h.2.2 edgeSeries []).1, (h.2.2 edgeSeries []).2⟩

/-- Claim C9: `copy()` on a series whose `x` is None fails (the
unconditional `self.x.copy()` is an attribute access on None); on a
constructed series whose `x` was supplied it succeeds. -/
theorem C9_copy_requires_x :
    (∀ s : SeriesConfig, s.x = none → SeriesConfig.copy s = none) ∧
    (∀ raw s xs, seriesPostInit raw = Except.ok s → s.x = some xs →
      (SeriesConfig.copy s).isSome) := by
  constructor
  · intro s hx
    simp [SeriesConfig.copy, hx]
  · intro raw s xs h hx
    rw [copy_of_constructed s (seriesPostInit_constructed raw s h) xs hx]
    rfl

/-- Witness for C9: a y-only series cannot be copied, an x-y series
can. -/
theorem C9_copy_requires_x_witness :
    SeriesConfig.copy yOnlySeries = none ∧
    (SeriesConfig.copy (fillColors xySeriesRaw)).isSome := by
  have h := C9_copy_requires_x
  exact ⟨h.1 yOnlySeries rfl,
    h.2 xySeriesRaw (fillColors xySeriesRaw) [3, 4] rfl rfl⟩

/-- Claim C10: `from_dict` mutates the caller dictionary in place: a
present non-None `x_limits` or `y_limits` entry (a list, as produced by
`to_dict`) is replaced by a tuple; every other entry is left exactly as
it was. -/
theorem C10_from_dict_mutates_caller (d : PyDict) (now : String)
    (hx : ∀ v, dictGet d "x_limits" = some v → v = Val.none ∨ ∃ xs, v = Val.list xs)
    (hy : ∀ v, dictGet d "y_limits" = some v → v = Val.none ∨ ∃ ys, v = Val.list ys) :
    (∀ xs, dictGet d "x_limits" = some (Val.list xs) →
      dictGet (from_dict now d).snd "x_limits" = some (Val.tuple xs)) ∧
    (∀ ys, dictGet d "y_limits" = some (Val.list ys) →
      dictGet (from_dict now d).snd "y_limits" = some (Val.tuple ys)) ∧
    (∀ k, k ≠ "x_limits" → k ≠ "y_limits" →
      dictGet (from_dict now d).snd k = dictGet d k) := by
  obtain ⟨d1, h1, h1x, h1o⟩ := tupleizeKey_listOrNone "x_limits" d hx
  have hy1 : ∀ v, dictGet d1 "y_limits" = some v →
      v = Val.none ∨ ∃ ys, v = Val.list ys := by
    rw [h1o "y_limits" (by decide)]
    exact hy
  obtain ⟨d2, h2, h2y, h2o⟩ := tupleizeKey_listOrNone "y_limits" d1 hy1
  have hfd : (from_dict now d).snd = d2 := by
    simp [from_dict, h1, h2]
  refine ⟨?_, ?_, ?_⟩
  · intro xs hxs
    rw [hfd, h2o "x_limits" (by decide)]
    exact h1x xs hxs
  · intro ys hys
    rw [hfd]
    refine h2y ys ?_
    rw [h1o "y_limits" (by decide)]
    exact hys
  · intro k hk1 hk2
    rw [hfd, h2o k hk2, h1o k hk1]

/-- Witness for C10 on a dict with a list `x_limits`, a None `y_limits`
and one unknown key. -/
theorem C10_from_dict_mutates_caller_witness :
    dictGet (from_dict "t" d10).snd "x_limits"
        = some (Val.tuple [Val.rat 1, Val.rat 2]) ∧
    dictGet (from_dict "t" d10).snd "foo" = some (Val.str "bar") := by
  have h := C10_from_dict_mutates_caller d10 "t"
    (by
      intro v hv
      obtain rfl := Option.some.inj hv.symm
      exact Or.inr ⟨_, rfl⟩)
    (by
      intro v hv
      obtain rfl := Option.some.inj hv.symm
      exact Or.inl rfl)
  exact ⟨h.1 [Val.rat 1, Val.rat 2] rfl, h.2.2 "foo" (by decide) (by decide)⟩
